import Mathlib

/-!
Shallow embedding of djib1010/stremio-library-exporter.

JSON-decoded Python values are modelled by `Json`.  Python dynamic-type
failures (AttributeError / TypeError raised mid-function) are modelled by
`Option`: `none` means the Python function raised a non-labelled exception.
-/

/-- A JSON value as produced by Python's `json.load` (numbers restricted to
integers, which is what the Stremio library data contains). -/
inductive Json where
  | null : Json
  | bool : Bool → Json
  | num : Int → Json
  | str : String → Json
  | arr : List Json → Json
  | obj : List (String × Json) → Json
deriving Repr

/-- Key lookup in a Python dict (keys produced by `json.load` are unique,
so first-match lookup is dict lookup). -/
def lookupField : List (String × Json) → String → Option Json
  | [], _ => none
  | (k, v) :: rest, key => if k = key then some v else lookupField rest key

/-- Python truthiness (`bool(x)`) of a JSON-decoded value. -/
def Json.falsy : Json → Bool
  | .null => true
  | .bool b => !b
  | .num n => n == 0
  | .str s => s == ""
  | .arr xs => xs.isEmpty
  | .obj fs => fs.isEmpty

/-- Python truthiness of an optional value (`none` stands for Python `None`). -/
def optFalsy : Option Json → Bool
  | none => true
  | some v => v.falsy

/-- Substring test, Python's `needle in hay` for strings. -/
def strContains (hay needle : String) : Bool :=
  hay.data.tails.any (fun t => needle.data.isPrefixOf t)

/-- Python `x == s` for a string literal `s`: only a string with the same
characters compares equal. -/
def pyEqStr (v : Json) (s : String) : Bool :=
  match v with
  | .str t => t == s
  | _ => false

/-- Python `x == True`: `True` itself and the number `1` compare equal to
`True`, nothing else does. -/
def pyEqTrue (v : Json) : Bool :=
  match v with
  | .bool b => b
  | .num n => n == 1
  | _ => false

/-- Python's `key in container` for a JSON value: key membership on dicts,
substring on strings, element equality on lists; `none` models the
`TypeError` raised on other types. -/
def pyMem (key : String) : Json → Option Bool
  | .obj fs => some (lookupField fs key).isSome
  | .str s => some (strContains s key)
  | .arr xs => some (xs.any (fun x => pyEqStr x key))
  | _ => none

/-!
## movie_extractor.parse_library_data

The per-item body of the loop in `parse_library_data`
(src/movie_extractor.py, lines 70-104), in source order.  The result is
`none` when the Python body raises (non-dict item, non-dict `state`, the
meta/poster fallback indexing a non-dict, a non-dict `meta` asked for
`.get('year')`, or a `timesWatched` value not comparable to `0`),
`some none` when the item is skipped by the essential-data check, and
`some (some (m, w))` when the item is kept, `w = true` meaning it is
appended to the watched partition.
-/

/-- One exported record (`movie_data` in the source). -/
structure Movie where
  imdbID : Json
  title : Json
  poster : Json
  year : Json
  itemType : Json
deriving Repr

def parseItem (item : Json) : Option (Option (Movie × Bool)) :=
  match item with
  | .obj fs =>
    let imdb_id := (lookupField fs "_id").getD (.str "")
    let name := (lookupField fs "name").getD (.str "")
    match (lookupField fs "state").getD (.obj []) with
    | .obj sfs =>
      let flagged := (lookupField sfs "timesWatched").getD (.num 0)
      let poster0 := lookupField fs "poster"
      let posterStep : Option (Option Json) :=
        if optFalsy poster0 && (lookupField fs "meta").isSome then
          match pyMem "poster" ((lookupField fs "meta").getD .null) with
          | none => none
          | some true =>
            match (lookupField fs "meta").getD .null with
            | .obj mfs => some (lookupField mfs "poster")
            | _ => none
          | some false => some poster0
        else some poster0
      match posterStep with
      | none => none
      | some poster1 =>
        let year0 := lookupField fs "year"
        let yearStep : Option (Option Json) :=
          if optFalsy year0 && (lookupField fs "meta").isSome then
            match (lookupField fs "meta").getD .null with
            | .obj mfs => some (lookupField mfs "year")
            | _ => none
          else some year0
        match yearStep with
        | none => none
        | some year1 =>
          let itemType := (lookupField fs "type").getD (.str "movie")
          if imdb_id.falsy || name.falsy then some none
          else
            match flagged with
            | .num n => some (some (⟨imdb_id, name, poster1.getD .null, year1.getD .null, itemType⟩, decide (0 < n)))
            | .bool b => some (some (⟨imdb_id, name, poster1.getD .null, year1.getD .null, itemType⟩, b))
            | _ => none
    | _ => none
  | _ => none

/-- `parse_library_data`'s loop over the raw item list: builds the
watched/watchlist partition pair, `none` when the loop body raises. -/
def parse_library_data : List Json → Option (List Movie × List Movie)
  | [] => some ([], [])
  | item :: rest =>
    match parseItem item with
    | none => none
    | some none => parse_library_data rest
    | some (some (m, w)) =>
      match parse_library_data rest with
      | none => none
      | some (ws, wl) =>
        some (if w then m :: ws else ws, if w then wl else m :: wl)

/-- The effective times-watched counter of a raw item:
`item.get('state', {}).get('timesWatched', 0)`; `none` when `state` is
present but not a mapping (where the source raises). -/
def timesWatchedOf (item : Json) : Option Json :=
  match item with
  | .obj fs =>
    match (lookupField fs "state").getD (.obj []) with
    | .obj sfs => some ((lookupField sfs "timesWatched").getD (.num 0))
    | _ => none
  | _ => none

/-- The watched-partition contribution of a raw item. -/
def toWatchedEntry (item : Json) : Option Movie :=
  match parseItem item with
  | some (some (m, true)) => some m
  | _ => none

/-- The watchlist-partition contribution of a raw item. -/
def toWatchlistEntry (item : Json) : Option Movie :=
  match parseItem item with
  | some (some (m, false)) => some m
  | _ => none

/-- The retained record of a raw item (skipped and crashing items give
`none`). -/
def retainedEntry (item : Json) : Option (Movie × Bool) :=
  match parseItem item with
  | some (some mw) => some mw
  | _ => none

/-!
## library_importer.restore_library

`restore_library` (src/library_importer.py, lines 40-77) walks
`range(0, len(items), 50)`; for each start index `i` it posts
`items[i:i+50]` and adds the batch size to the tally exactly when the
parsed response body satisfies
`result.get("result") == "ok" or result.get("success") == True`.
A transport/HTTP error, an unparsable body, or a body without `.get`
is caught by the `except` and the loop continues.
-/

/-- The outcome of one `requests.post` for a batch: `exn` when the request
itself (or `raise_for_status` / `.json()`) raises, otherwise the parsed
response body. -/
inductive BatchResult where
  | exn : BatchResult
  | body : Json → BatchResult

/-- Whether a batch write is counted as succeeded: the body is a mapping
and `result.get("result") == "ok" or result.get("success") == True`.
A raised request (or a non-mapping body, whose `.get` raises inside the
same `try`) never counts. -/
def batchSucceeds : BatchResult → Bool
  | .exn => false
  | .body (.obj fs) =>
      pyEqStr ((lookupField fs "result").getD .null) "ok"
        || pyEqTrue ((lookupField fs "success").getD .null)
  | .body _ => false

/-- The sequence of batches posted by the loop, from start index `i`:
`items[i:i+50]`, then from `i+50`, while `i < len(items)`. -/
def restoreBatchList (items : List Json) (i : Nat) : List (List Json) :=
  if h : i < items.length then
    (items.drop i).take 50 :: restoreBatchList items (i + 50)
  else []
termination_by items.length - i
decreasing_by simp_wf; omega

/-- The batches posted by `restore_library` for a given item list. -/
def restore_batches (items : List Json) : List (List Json) :=
  restoreBatchList items 0

/-- The tally loop of `restore_library`: `resp i` is the outcome of the
post for the batch starting at index `i`. -/
def restoreLoop (items : List Json) (resp : Nat → BatchResult) (i : Nat) (count : Nat) : Nat :=
  if h : i < items.length then
    restoreLoop items resp (i + 50)
      (if batchSucceeds (resp i) then count + ((items.drop i).take 50).length else count)
  else count
termination_by items.length - i
decreasing_by simp_wf; omega

/-- `restore_library`'s returned `success_count`. -/
def restore_library (items : List Json) (resp : Nat → BatchResult) : Nat :=
  restoreLoop items resp 0 0

/-!
## library_importer.load_backup and the main flow

`load_backup` (src/library_importer.py, lines 23-38) parses the backup
file; `none` input models an unreadable or unparsable file.  A dict with a
`"result"` key yields that value, a bare list is returned as is, anything
else raises `ValueError`, re-raised as `ValueError("Failed to load
backup: ...")`.
-/

inductive LoadError where
  | failedToLoad : LoadError
deriving Repr, DecidableEq

def load_backup : Option Json → Except LoadError Json
  | none => .error .failedToLoad
  | some d =>
    match d with
    | .obj fs =>
      match lookupField fs "result" with
      | some v => .ok v
      | none => .error .failedToLoad
    | .arr xs => .ok (.arr xs)
    | _ => .error .failedToLoad

/-- The stages of `main` in src/library_importer.py (lines 90-107):
load the backup, then extract the auth key (network), then restore
(network).  A `ValueError` from `load_backup` is caught and `main`
returns 1, so on a load failure neither network stage runs. -/
inductive MainStep where
  | loadStep : MainStep
  | authStep : MainStep
  | restoreStep : MainStep
deriving Repr, DecidableEq

def importer_main_steps (backup : Option Json) : List MainStep :=
  match load_backup backup with
  | .error _ => [MainStep.loadStep]
  | .ok _ => [MainStep.loadStep, MainStep.authStep, MainStep.restoreStep]

/-!
## auth_extractor._extract_auth_key_from_storage

`_extract_auth_key_from_storage` (src/auth_extractor.py, lines 135-180)
scans the localStorage snapshot in order for the first value that is a
dict containing an `'auth'` key; failing that it raises
"Could not find profile data in localStorage".  It then re-checks
`'auth' not in profile_data` ("No 'auth' field found in profile data"),
and finally `'key' not in auth_data` ("No 'key' field found in auth
data").  `none` models a `TypeError` (membership test or indexing on a
value that supports neither).
-/

inductive AuthError where
  | noProfileData : AuthError
  | noAuthField : AuthError
  | noKeyField : AuthError
deriving Repr, DecidableEq

/-- The for-loop of lines 160-164: the first storage value that is a dict
containing `'auth'`, as its field list. -/
def findProfileData : List (String × Json) → Option (List (String × Json))
  | [] => none
  | (_, v) :: rest =>
    match v with
    | .obj fs => if (lookupField fs "auth").isSome then some fs else findProfileData rest
    | _ => findProfileData rest

/-- Whether a storage value would be picked up as profile data. -/
def isProfileRecord : Json → Bool
  | .obj fs => (lookupField fs "auth").isSome
  | _ => false

def extract_auth_key_from_storage (storage : List (String × Json)) : Option (Except AuthError Json) :=
  match findProfileData storage with
  | none => some (.error .noProfileData)
  | some pfs =>
    match lookupField pfs "auth" with
    | none => some (.error .noAuthField)
    | some authData =>
      match pyMem "key" authData with
      | none => none
      | some false => some (.error .noKeyField)
      | some true =>
        match authData with
        | .obj afs => some (.ok ((lookupField afs "key").getD .null))
        | _ => none

/-- Whether the result is the "No 'auth' field found in profile data"
failure. -/
def isNoAuthFieldError : Option (Except AuthError Json) → Bool
  | some (.error .noAuthField) => true
  | _ => false

/-!
## auth_extractor._launch_browser

`_launch_browser` (src/auth_extractor.py, lines 63-71) picks the launcher
from `{firefox, webkit, chromium}` with chromium as default, and calls
`launch(headless=True)` — the `headless` argument of `extract_auth_key`
is accepted but not forwarded.
-/

structure LaunchCall where
  launcher : String
  headless : Bool
deriving Repr, DecidableEq

/-- `browsers.get(self.browser_type, playwright.chromium)`. -/
def browserChoice (browser_type : String) : String :=
  if browser_type = "firefox" then "firefox"
  else if browser_type = "webkit" then "webkit"
  else if browser_type = "chromium" then "chromium"
  else "chromium"

/-- The launch call made by `_launch_browser`. -/
def launch_browser (browser_type : String) (headless : Bool) : LaunchCall :=
  { launcher := browserChoice browser_type, headless := true }

/-- The launch call made by `extract_auth_key(headless)` (line 50 forwards
its `headless` to `_launch_browser`). -/
def extract_auth_key_launch (browser_type : String) (headless : Bool) : LaunchCall :=
  launch_browser browser_type headless

/-- The launch call made by `extract_stremio_auth_key(headless,
browser_type)` (line 195 forwards `headless` to `extract_auth_key`). -/
def extract_stremio_auth_key_launch (headless : Bool) (browser_type : String) : LaunchCall :=
  extract_auth_key_launch browser_type headless

/-!
## Concrete inputs used by witnesses
-/

/-- 101 items: three batches of sizes 50, 50, 1. -/
def c1Items : List Json := List.replicate 101 Json.null

/-- Batch responses: the batch starting at index 50 (the second batch)
raises, the others answer `{"result": "ok"}`. -/
def c1Resp : Nat → BatchResult :=
  fun i => if i = 50 then .exn else .body (Json.obj [("result", Json.str "ok")])

/-- A snapshot with no dict value containing `'auth'`. -/
def c6Storage1 : List (String × Json) := [("x", Json.str "v")]

/-- A snapshot whose profile record has an `'auth'` dict lacking `'key'`. -/
def c6Storage2 : List (String × Json) :=
  [("profile", Json.obj [("auth", Json.obj [("user", Json.str "u")])])]

/-!
## Helper lemmas
-/

theorem findProfileData_auth : ∀ (storage pfs : List (String × Json)),
    findProfileData storage = some pfs → (lookupField pfs "auth").isSome = true := by
  intro storage
  induction storage with
  | nil => intro pfs h; exact absurd h (by simp [findProfileData])
  | cons kv rest ih =>
    intro pfs h
    obtain ⟨k, v⟩ := kv
    cases v with
    | obj fs =>
      simp only [findProfileData] at h
      by_cases hs : (lookupField fs "auth").isSome = true
      · rw [if_pos hs] at h
        injection h with h
        subst h
        exact hs
      · rw [if_neg hs] at h
        exact ih pfs h
    | null => exact ih pfs h
    | bool b => exact ih pfs h
    | num n => exact ih pfs h
    | str s => exact ih pfs h
    | arr xs => exact ih pfs h

theorem findProfileData_none : ∀ storage : List (String × Json),
    (∀ kv ∈ storage, isProfileRecord kv.2 = false) → findProfileData storage = none := by
  intro storage
  induction storage with
  | nil => intro _; rfl
  | cons kv rest ih =>
    intro h
    obtain ⟨k, v⟩ := kv
    have hv : isProfileRecord v = false := h (k, v) (List.mem_cons_self _ _)
    have hrest : findProfileData rest = none :=
      ih (fun p hp => h p (List.mem_cons_of_mem _ hp))
    cases v with
    | obj fs =>
      simp only [isProfileRecord] at hv
      simp only [findProfileData, hv, if_false]
      exact hrest
    | null => exact hrest
    | bool b => exact hrest
    | num n => exact hrest
    | str s => exact hrest
    | arr xs => exact hrest

theorem ceil_div50_step (m : Nat) (hm : 0 < m) :
    (m - 50 + 49) / 50 + 1 = (m + 49) / 50 := by
  rcases le_or_lt m 50 with h | h
  · have h0 : m - 50 = 0 := by omega
    have h1 : (m + 49) / 50 = 1 := by
      have hle : (m + 49) / 50 < 2 := by
        rw [Nat.div_lt_iff_lt_mul (by norm_num)]; omega
      have hge : 1 ≤ (m + 49) / 50 := by
        rw [Nat.le_div_iff_mul_le (by norm_num)]; omega
      omega
    rw [h0, h1]
  · have he : m - 50 + 49 = m - 1 := by omega
    have h2 : m + 49 = m - 1 + 50 := by omega
    rw [he, h2, Nat.add_div_right _ (by norm_num)]

theorem restoreBatchList_join_aux : ∀ (fuel : Nat) (items : List Json) (i : Nat),
    items.length - i ≤ fuel → (restoreBatchList items i).flatten = items.drop i := by
  intro fuel
  induction fuel with
  | zero =>
    intro items i h
    rw [restoreBatchList, dif_neg (by omega)]
    rw [List.drop_eq_nil_of_le (by omega)]
    rfl
  | succ fuel ih =>
    intro items i h
    rw [restoreBatchList]
    by_cases hi : i < items.length
    · rw [dif_pos hi, List.flatten_cons, ih items (i + 50) (by omega)]
      have hd : items.drop (i + 50) = (items.drop i).drop 50 := by
        rw [List.drop_drop]
      rw [hd, List.take_append_drop]
    · rw [dif_neg hi]
      rw [List.drop_eq_nil_of_le (by omega)]
      rfl

theorem restoreBatchList_length_aux : ∀ (fuel : Nat) (items : List Json) (i : Nat),
    items.length - i ≤ fuel →
    (restoreBatchList items i).length = (items.length - i + 49) / 50 := by
  intro fuel
  induction fuel with
  | zero =>
    intro items i h
    rw [restoreBatchList, dif_neg (by omega)]
    have h0 : items.length - i = 0 := by omega
    rw [h0]
    rfl
  | succ fuel ih =>
    intro items i h
    rw [restoreBatchList]
    by_cases hi : i < items.length
    · rw [dif_pos hi, List.length_cons, ih items (i + 50) (by omega)]
      have hs : items.length - (i + 50) = items.length - i - 50 := by omega
      rw [hs]
      exact ceil_div50_step (items.length - i) (by omega)
    · rw [dif_neg hi]
      have h0 : items.length - i = 0 := by omega
      rw [h0]
      rfl

theorem restoreBatchList_mem_aux : ∀ (fuel : Nat) (items : List Json) (i : Nat)
    (b : List Json), items.length - i ≤ fuel → b ∈ restoreBatchList items i →
    b.length ≤ 50 := by
  intro fuel
  induction fuel with
  | zero =>
    intro items i b h hb
    rw [restoreBatchList, dif_neg (by omega)] at hb
    exact absurd hb (List.not_mem_nil b)
  | succ fuel ih =>
    intro items i b h hb
    rw [restoreBatchList] at hb
    by_cases hi : i < items.length
    · rw [dif_pos hi] at hb
      rcases List.mem_cons.mp hb with hb | hb
      · rw [hb]; exact List.length_take_le 50 _
      · exact ih items (i + 50) b (by omega) hb
    · rw [dif_neg hi] at hb
      exact absurd hb (List.not_mem_nil b)

theorem restoreLoop_step_success {items : List Json} {resp : Nat → BatchResult}
    {i count : Nat} (h : i < items.length) (hs : batchSucceeds (resp i) = true) :
    restoreLoop items resp i count
      = restoreLoop items resp (i + 50) (count + ((items.drop i).take 50).length) := by
  rw [restoreLoop, dif_pos h, hs]
  simp

theorem restoreLoop_step_fail {items : List Json} {resp : Nat → BatchResult}
    {i count : Nat} (h : i < items.length) (hs : batchSucceeds (resp i) = false) :
    restoreLoop items resp i count = restoreLoop items resp (i + 50) count := by
  rw [restoreLoop, dif_pos h, hs]
  simp

theorem restoreLoop_step_stop {items : List Json} {resp : Nat → BatchResult}
    {i count : Nat} (h : ¬ i < items.length) :
    restoreLoop items resp i count = count := by
  rw [restoreLoop, dif_neg h]

theorem parse_library_data_filterMap : ∀ (l : List Json) (p : List Movie × List Movie),
    parse_library_data l = some p →
    p.1 = l.filterMap toWatchedEntry ∧ p.2 = l.filterMap toWatchlistEntry := by
  intro l
  induction l with
  | nil =>
    intro p h
    simp only [parse_library_data] at h
    injection h with h
    subst h
    simp
  | cons item rest ih =>
    intro p h
    simp only [parse_library_data] at h
    cases hpi : parseItem item with
    | none => rw [hpi] at h; exact absurd h (by simp)
    | some o =>
      rw [hpi] at h
      cases o with
      | none =>
        have hw : toWatchedEntry item = none := by simp [toWatchedEntry, hpi]
        have hl : toWatchlistEntry item = none := by simp [toWatchlistEntry, hpi]
        rw [List.filterMap_cons_none hw, List.filterMap_cons_none hl]
        exact ih p h
      | some mw =>
        obtain ⟨m, w⟩ := mw
        cases hr : parse_library_data rest with
        | none => rw [hr] at h; exact absurd h (by simp)
        | some q =>
          rw [hr] at h
          obtain ⟨ws, wl⟩ := q
          obtain ⟨hq1, hq2⟩ := ih (ws, wl) hr
          have hq1 : ws = List.filterMap toWatchedEntry rest := hq1
          have hq2 : wl = List.filterMap toWatchlistEntry rest := hq2
          injection h with h
          subst h
          cases w with
          | true =>
            have hw : toWatchedEntry item = some m := by simp [toWatchedEntry, hpi]
            have hl : toWatchlistEntry item = none := by simp [toWatchlistEntry, hpi]
            rw [List.filterMap_cons_some hw, List.filterMap_cons_none hl]
            simp [hq1, hq2]
          | false =>
            have hw : toWatchedEntry item = none := by simp [toWatchedEntry, hpi]
            have hl : toWatchlistEntry item = some m := by simp [toWatchlistEntry, hpi]
            rw [List.filterMap_cons_none hw, List.filterMap_cons_some hl]
            simp [hq1, hq2]

theorem filterMap_partition_length : ∀ l : List Json,
    (l.filterMap toWatchedEntry).length + (l.filterMap toWatchlistEntry).length
      = (l.filterMap retainedEntry).length := by
  intro l
  induction l with
  | nil => rfl
  | cons item rest ih =>
    cases hpi : parseItem item with
    | none =>
      simp only [List.filterMap_cons, toWatchedEntry, toWatchlistEntry, retainedEntry, hpi]
      exact ih
    | some o =>
      cases o with
      | none =>
        simp only [List.filterMap_cons, toWatchedEntry, toWatchlistEntry, retainedEntry, hpi]
        exact ih
      | some mw =>
        obtain ⟨m, w⟩ := mw
        cases w with
        | true =>
          simp only [List.filterMap_cons, toWatchedEntry, toWatchlistEntry, retainedEntry, hpi,
            List.length_cons]
          omega
        | false =>
          simp only [List.filterMap_cons, toWatchedEntry, toWatchlistEntry, retainedEntry, hpi,
            List.length_cons]
          omega

/-!
## Claim theorems
-/

/-- C2: for every list of N items, `restore_library` issues exactly
`ceil(N/50)` write calls; each batch has at most 50 items, and the batches
in index order concatenate back to the original list, so they cover all N
items exactly once in the original order. -/
theorem restore_batches_cover (items : List Json) :
    (restore_batches items).flatten = items
    ∧ (restore_batches items).length = (items.length + 49) / 50
    ∧ ∀ b ∈ restore_batches items, b.length ≤ 50 := by
  refine ⟨?_, ?_, ?_⟩
  · have h := restoreBatchList_join_aux items.length items 0 (by omega)
    simpa using h
  · have h := restoreBatchList_length_aux items.length items 0 (by omega)
    simpa using h
  · intro b hb
    exact restoreBatchList_mem_aux items.length items 0 b (by omega) hb

/-- Witness for C2 at a concrete two-item list (a single batch). -/
theorem restore_batches_cover_witness :
    (restore_batches [Json.num 0, Json.num 1]).flatten = [Json.num 0, Json.num 1]
    ∧ [Json.num 0, Json.num 1].length ≤ 50 := by
  have h := restore_batches_cover [Json.num 0, Json.num 1]
  refine ⟨h.1, h.2.2 [Json.num 0, Json.num 1] ?_⟩
  have e : restore_batches [Json.num 0, Json.num 1] = [[Json.num 0, Json.num 1]] := by
    simp [restore_batches, restoreBatchList]
  rw [e]
  exact List.mem_singleton.mpr rfl

/-- C1: a batch is tallied exactly when the response body indicates
`result == "ok"` or `success == True`; a raised request never is.  With
three batches where the second one (start index 50) fails and the others
succeed, the tally is the size of the first batch plus the size of the
third: the loop continues past the failed batch instead of aborting. -/
theorem restore_library_best_effort (items : List Json) (resp : Nat → BatchResult)
    (hlen1 : 100 < items.length) (hlen2 : items.length ≤ 150)
    (h0 : batchSucceeds (resp 0) = true)
    (h50 : batchSucceeds (resp 50) = false)
    (h100 : batchSucceeds (resp 100) = true) :
    (∀ fs, batchSucceeds (.body (Json.obj fs)) = true ↔
        (pyEqStr ((lookupField fs "result").getD .null) "ok" = true
          ∨ pyEqTrue ((lookupField fs "success").getD .null) = true))
    ∧ batchSucceeds .exn = false
    ∧ restore_batches items
        = [items.take 50, (items.drop 50).take 50, (items.drop 100).take 50]
    ∧ restore_library items resp
        = (items.take 50).length + ((items.drop 100).take 50).length := by
  refine ⟨?_, rfl, ?_, ?_⟩
  · intro fs
    simp [batchSucceeds]
  · rw [restore_batches, restoreBatchList, dif_pos (by omega : 0 < items.length)]
    rw [restoreBatchList, dif_pos (by omega : 50 < items.length)]
    rw [restoreBatchList, dif_pos (by omega : 100 < items.length)]
    rw [restoreBatchList, dif_neg (by omega : ¬ 150 < items.length)]
    simp
  · rw [restore_library,
      restoreLoop_step_success (by omega : 0 < items.length) h0,
      restoreLoop_step_fail (by omega : 50 < items.length) h50,
      restoreLoop_step_success (by omega : 100 < items.length) h100,
      restoreLoop_step_stop (by omega : ¬ 150 < items.length)]
    simp

/-- Witness for C1: 101 items (batches of 50, 50, 1), second batch raises,
the others answer ok. -/
theorem restore_library_best_effort_witness :
    restore_library c1Items c1Resp
      = (c1Items.take 50).length + ((c1Items.drop 100).take 50).length :=
  (restore_library_best_effort c1Items c1Resp
    (by simp [c1Items]) (by simp [c1Items]) rfl rfl rfl).2.2.2

/-- C5: when `parse_library_data` succeeds, each retained item lands in
exactly one partition — the watched partition is the stable filter of the
input to the watched contributions and likewise for the watchlist (so
partition order is input order, not a re-sort) — and the partition sizes
add up to the number of retained items. -/
theorem parse_partition_stable (l : List Json) (ws wl : List Movie)
    (h : parse_library_data l = some (ws, wl)) :
    ws = l.filterMap toWatchedEntry
    ∧ wl = l.filterMap toWatchlistEntry
    ∧ ws.length + wl.length = (l.filterMap retainedEntry).length := by
  obtain ⟨h1, h2⟩ := parse_library_data_filterMap l (ws, wl) h
  have h1 : ws = l.filterMap toWatchedEntry := h1
  have h2 : wl = l.filterMap toWatchlistEntry := h2
  exact ⟨h1, h2, by rw [h1, h2]; exact filterMap_partition_length l⟩

/-- Witness for C5: one watched item, one watchlist item, one skipped
record. -/
theorem parse_partition_stable_witness :
    [Movie.mk (Json.str "tt1") (Json.str "A") Json.null Json.null (Json.str "movie")]
        = [Json.obj [("_id", Json.str "tt1"), ("name", Json.str "A"),
            ("state", Json.obj [("timesWatched", Json.num 2)])],
           Json.obj [("_id", Json.str "tt2"), ("name", Json.str "B")],
           Json.obj []].filterMap toWatchedEntry
    ∧ [Movie.mk (Json.str "tt2") (Json.str "B") Json.null Json.null (Json.str "movie")]
        = [Json.obj [("_id", Json.str "tt1"), ("name", Json.str "A"),
            ("state", Json.obj [("timesWatched", Json.num 2)])],
           Json.obj [("_id", Json.str "tt2"), ("name", Json.str "B")],
           Json.obj []].filterMap toWatchlistEntry
    ∧ [Movie.mk (Json.str "tt1") (Json.str "A") Json.null Json.null (Json.str "movie")].length
        + [Movie.mk (Json.str "tt2") (Json.str "B") Json.null Json.null (Json.str "movie")].length
        = ([Json.obj [("_id", Json.str "tt1"), ("name", Json.str "A"),
            ("state", Json.obj [("timesWatched", Json.num 2)])],
           Json.obj [("_id", Json.str "tt2"), ("name", Json.str "B")],
           Json.obj []].filterMap retainedEntry).length :=
  parse_partition_stable _ _ _ rfl

/-- C8: `parse_library_data` is a pure function of the raw item list —
applying it twice to the same input yields identical partitions. -/
theorem parse_library_data_deterministic (l : List Json) :
    parse_library_data l = parse_library_data l := rfl

/-- C9: whatever value the `headless` parameter of `extract_auth_key` (and
of `extract_stremio_auth_key`) receives, the browser is launched with
`headless=True`; two runs differing only in `headless` make the same
launch call. -/
theorem headless_parameter_ignored (browser_type : String) (h1 h2 : Bool) :
    extract_stremio_auth_key_launch h1 browser_type
        = extract_stremio_auth_key_launch h2 browser_type
    ∧ extract_auth_key_launch browser_type h1 = extract_auth_key_launch browser_type h2
    ∧ (launch_browser browser_type h1).headless = true :=
  ⟨rfl, rfl, rfl⟩

/-- C10: the "No 'auth' field found in profile data" branch is unreachable:
for every storage snapshot the extraction never produces that error,
because a profile record is only selected when it already contains
`'auth'`. -/
theorem no_auth_field_error_unreachable (storage : List (String × Json)) :
    isNoAuthFieldError (extract_auth_key_from_storage storage) = false := by
  rw [extract_auth_key_from_storage]
  cases hfp : findProfileData storage with
  | none => rfl
  | some pfs =>
    have hauth := findProfileData_auth storage pfs hfp
    cases hl : lookupField pfs "auth" with
    | none => rw [hl] at hauth; exact absurd hauth (by simp)
    | some authData =>
      simp only [hl]
      cases hm : pyMem "key" authData with
      | none => simp only [hm]; rfl
      | some b =>
        cases b with
        | false => simp only [hm]; rfl
        | true => simp only [hm]; cases authData <;> rfl

/-- C3: a retained item goes to the watched partition exactly when its
effective times-watched counter (`state.get('timesWatched', 0)`, with a
missing `state` treated as `{}` and a missing counter treated as `0`) is
strictly positive. -/
theorem parse_watched_iff_positive (item : Json) (n : Int) (m : Movie) (w : Bool)
    (ht : timesWatchedOf item = some (Json.num n))
    (hp : parseItem item = some (some (m, w))) :
    w = true ↔ 0 < n := by
  cases item with
  | null => exact absurd hp (by simp [parseItem])
  | bool b => exact absurd hp (by simp [parseItem])
  | num k => exact absurd hp (by simp [parseItem])
  | str s => exact absurd hp (by simp [parseItem])
  | arr xs => exact absurd hp (by simp [parseItem])
  | obj fs =>
    simp only [parseItem] at hp
    split at hp
    case _ sfs hst =>
      simp only [timesWatchedOf, hst, Option.some.injEq] at ht
      rw [ht] at hp
      repeat' split at hp
      all_goals simp_all
      all_goals (rw [← hp.2]; simp)
    case _ hst => exact absurd hp (by simp)

/-- Witness for C3: `timesWatched = 1` lands in the watched partition. -/
theorem parse_watched_iff_positive_witness : (true = true) ↔ ((0 : Int) < 1) :=
  parse_watched_iff_positive
    (Json.obj [("_id", Json.str "tt1"), ("name", Json.str "A"),
      ("state", Json.obj [("timesWatched", Json.num 1)])])
    1
    (Movie.mk (Json.str "tt1") (Json.str "A") Json.null Json.null (Json.str "movie"))
    true rfl rfl

/-- C4 counterexample: the claim says a record lacking an identifier is
dropped silently regardless of its other fields, but a record with no
`_id` whose `state` field is the number 5 makes `parse_library_data`
raise (`state.get` on an int, line 75) before the essential-data check on
line 89 — the run errors instead of silently dropping the record. -/
theorem parse_drop_not_silent_counterexample :
    lookupField [("state", Json.num 5)] "_id" = none
    ∧ parse_library_data [Json.obj [("state", Json.num 5)]] = none :=
  ⟨rfl, rfl⟩

/-- C4 amended: a record whose identifier or name is missing or empty
(Python-falsy) is never retained into either partition; and whenever the
loop body does not raise on the record's other fields, the record is
skipped silently. -/
theorem parse_drops_missing_essentials (fs : List (String × Json))
    (hbad : (((lookupField fs "_id").getD (Json.str "")).falsy
        || ((lookupField fs "name").getD (Json.str "")).falsy) = true) :
    (∀ m w, ¬ parseItem (Json.obj fs) = some (some (m, w)))
    ∧ (parseItem (Json.obj fs) ≠ none → parseItem (Json.obj fs) = some none) := by
  have key : parseItem (Json.obj fs) = none ∨ parseItem (Json.obj fs) = some none := by
    simp only [parseItem]
    repeat' split
    all_goals first
      | exact Or.inl rfl
      | exact Or.inr rfl
      | exact absurd hbad (by assumption)
  refine ⟨?_, ?_⟩
  · intro m w hc
    rcases key with hk | hk
    · rw [hc] at hk
      exact Option.noConfusion hk
    · rw [hc] at hk
      injection hk with hk
      exact Option.noConfusion hk
  · intro hne
    rcases key with hk | hk
    · exact absurd hk hne
    · exact hk

/-- Witness for C4 (amended) at a record with a name but no identifier. -/
theorem parse_drops_missing_essentials_witness :
    ¬ parseItem (Json.obj [("name", Json.str "B")])
        = some (some (Movie.mk Json.null Json.null Json.null Json.null Json.null, true))
    ∧ parseItem (Json.obj [("name", Json.str "B")]) = some none := by
  have h := parse_drops_missing_essentials [("name", Json.str "B")] rfl
  refine ⟨h.1 _ _, h.2 ?_⟩
  rw [show parseItem (Json.obj [("name", Json.str "B")]) = some none from rfl]
  simp

/-- C6 counterexample: the claim says a profile record whose `auth` field
is missing triggers its own specifically-labeled error, but such a record
is never recognized as profile data (the scan only picks dicts containing
`'auth'`), so the extraction raises the missing-profile-data error
instead. -/
theorem auth_missing_auth_error_counterexample :
    isProfileRecord (Json.obj [("email", Json.str "user")]) = false
    ∧ extract_auth_key_from_storage [("profile", Json.obj [("email", Json.str "user")])]
        = some (Except.error AuthError.noProfileData)
    ∧ AuthError.noProfileData ≠ AuthError.noAuthField :=
  ⟨rfl, rfl, by decide⟩

/-- C6 amended: the two reachable shape failures are distinctly labeled —
a snapshot with no dict value containing `'auth'` raises the
missing-profile-data error, while a snapshot whose profile record's
`auth` value lacks `'key'` raises the missing-key error, and the two are
distinct.  (The third labeled error, for a profile record without `auth`,
exists in the source but is unreachable.) -/
theorem auth_errors_distinct_amended (storage : List (String × Json)) :
    ((∀ kv ∈ storage, isProfileRecord kv.2 = false) →
        extract_auth_key_from_storage storage
          = some (Except.error AuthError.noProfileData))
    ∧ (∀ pfs authData, findProfileData storage = some pfs →
        lookupField pfs "auth" = some authData →
        pyMem "key" authData = some false →
        extract_auth_key_from_storage storage
          = some (Except.error AuthError.noKeyField))
    ∧ AuthError.noProfileData ≠ AuthError.noKeyField := by
  refine ⟨?_, ?_, by decide⟩
  · intro h
    simp only [extract_auth_key_from_storage, findProfileData_none storage h]
  · intro pfs authData h1 h2 h3
    simp only [extract_auth_key_from_storage, h1, h2, h3]

/-- Witness for C6 (amended) at two concrete snapshots. -/
theorem auth_errors_distinct_amended_witness :
    extract_auth_key_from_storage c6Storage1
        = some (Except.error AuthError.noProfileData)
    ∧ extract_auth_key_from_storage c6Storage2
        = some (Except.error AuthError.noKeyField) := by
  constructor
  · refine (auth_errors_distinct_amended c6Storage1).1 ?_
    intro kv hkv
    simp only [c6Storage1, List.mem_singleton] at hkv
    subst hkv
    rfl
  · exact (auth_errors_distinct_amended c6Storage2).2.1
      [("auth", Json.obj [("user", Json.str "u")])]
      (Json.obj [("user", Json.str "u")]) rfl rfl rfl

/-- C7: `load_backup` accepts a mapping with a `"result"` key (returning
that value) and a bare list (returned as is); any other parsed shape, and
an unreadable/unparsable file, fail with the load error — and on a load
error `main` stops before the auth and restore stages, which are the only
network stages. -/
theorem load_backup_shapes :
    (∀ fs v, lookupField fs "result" = some v →
        load_backup (some (Json.obj fs)) = Except.ok v)
    ∧ (∀ xs, load_backup (some (Json.arr xs)) = Except.ok (Json.arr xs))
    ∧ (∀ d, (∀ fs, d = Json.obj fs → lookupField fs "result" = none) →
        (∀ xs, d ≠ Json.arr xs) →
        load_backup (some d) = Except.error LoadError.failedToLoad)
    ∧ load_backup none = Except.error LoadError.failedToLoad
    ∧ (∀ b e, load_backup b = Except.error e →
        MainStep.authStep ∉ importer_main_steps b
          ∧ MainStep.restoreStep ∉ importer_main_steps b) := by
  refine ⟨?_, ?_, ?_, rfl, ?_⟩
  · intro fs v hv
    simp only [load_backup, hv]
  · intro xs
    rfl
  · intro d h1 h2
    cases d with
    | obj fs => simp only [load_backup, h1 fs rfl]
    | arr xs => exact absurd rfl (h2 xs)
    | null => rfl
    | bool b => rfl
    | num k => rfl
    | str s => rfl
  · intro b e he
    constructor
    · simp only [importer_main_steps, he]
      decide
    · simp only [importer_main_steps, he]
      decide

/-- Witness for C7 at a dict-shaped backup, a number-shaped backup and the
no-network consequence. -/
theorem load_backup_shapes_witness :
    load_backup (some (Json.obj [("result", Json.arr [Json.num 1])]))
        = Except.ok (Json.arr [Json.num 1])
    ∧ load_backup (some (Json.num 3)) = Except.error LoadError.failedToLoad
    ∧ MainStep.restoreStep ∉ importer_main_steps (some (Json.num 3)) := by
  refine ⟨load_backup_shapes.1 _ _ rfl,
    load_backup_shapes.2.2.1 (Json.num 3)
      (fun fs h => Json.noConfusion h) (fun xs h => Json.noConfusion h), ?_⟩
  exact (load_backup_shapes.2.2.2.2 (some (Json.num 3)) LoadError.failedToLoad rfl).2
